import Mathlib

/-!
Shallow embedding of `apps/webapp/app/services/templates/addTemplate.server.ts`
(`AddTemplateService`) from the trigger.dev webapp.

The service validates a form payload with a zod schema, looks up a GitHub App
authorization and a template record, checks that the GitHub API client is
configured, validates the stored account value, extracts owner/repo from the
template's repository URL, calls GitHub's create-repository-from-template API,
and finally persists an `OrganizationTemplate` record.

External collaborators (Prisma lookups/writes, the octokit client, the GitHub
API call, the account schema) are modelled as an explicit environment of
responses; the service's own control flow and data flow are translated
directly from the source.  Every effect the service issues (database read,
external API call, database write) is recorded in an event trace so that
claims about "no write occurs" are statements about the trace.
-/

/-- A JSON-like dynamic value, modelling the `unknown` payload a zod schema
receives and the opaque values stored in database records. -/
inductive JValue where
  | str (s : String)
  | num (n : Int)
  | bool (b : Bool)
  | null
  | arr (elems : List JValue)
  | obj (fields : List (String × JValue))

/-- Field lookup in a JSON object (first occurrence, as in a JS object). -/
def lookupField (fields : List (String × JValue)) (k : String) : Option JValue :=
  (fields.find? (fun p => p.1 == k)).map (fun p => p.2)

/-- A single zod validation issue (the shapes of issue relevant to
`FormSchema`: missing field, wrong type, string too short / too long,
literal mismatch). -/
inductive Issue where
  | required (path : String)
  | invalidType (path : String) (expected : String)
  | tooSmall (path : String) (min : Nat)
  | tooBig (path : String) (max : Nat)
  | invalidLiteral (path : String) (expected : String)
deriving DecidableEq

/-- Render one issue as text. -/
def renderIssue : Issue → String
  | .required p => p ++ ": Required"
  | .invalidType p e => p ++ ": Expected " ++ e
  | .tooSmall p n => p ++ ": String must contain at least " ++ toString n ++ " character(s)"
  | .tooBig p n => p ++ ": String must contain at most " ++ toString n ++ " character(s)"
  | .invalidLiteral p e => p ++ ": Invalid literal value, expected " ++ e

/-- Models `generateErrorMessage` from the `zod-error` package: a
human-readable rendering of the whole list of schema violations. -/
def generateErrorMessage (issues : List Issue) : String :=
  String.intercalate " | " (issues.map renderIssue)

/-- The parsed form data produced by `FormSchema` (zod infers
`private : "on" | undefined`, modelled as `Option String` whose only
inhabitant on the success path is `some "on"`). -/
structure FormData where
  name : String
  templateId : String
  «private» : Option String
  appAuthorizationId : String
deriving DecidableEq

/-- Check of the `name` field: `z.string().min(3).max(100)`. -/
def checkName (fields : List (String × JValue)) : Except Issue String :=
  match lookupField fields "name" with
  | none => .error (.required "name")
  | some (JValue.str s) =>
      if s.length < 3 then .error (.tooSmall "name" 3)
      else if s.length > 100 then .error (.tooBig "name" 100)
      else .ok s
  | some _ => .error (.invalidType "name" "string")

/-- Check of a plain `z.string()` field. -/
def checkString (fields : List (String × JValue)) (k : String) : Except Issue String :=
  match lookupField fields k with
  | none => .error (.required k)
  | some (JValue.str s) => .ok s
  | some _ => .error (.invalidType k "string")

/-- Check of the `private` field: `z.literal("on").optional()`. -/
def checkPrivate (fields : List (String × JValue)) : Except Issue (Option String) :=
  match lookupField fields "private" with
  | none => .ok none
  | some (JValue.str s) =>
      if s = "on" then .ok (some "on") else .error (.invalidLiteral "private" "on")
  | some _ => .error (.invalidLiteral "private" "on")

/-- The issues contributed by one field check. -/
def issuesOf {α : Type} : Except Issue α → List Issue
  | .error e => [e]
  | .ok _ => []

/-- Models `FormSchema.safeParse`: validates an unknown value against
`{name: z.string().min(3).max(100), templateId: z.string(),
private: z.literal("on").optional(), appAuthorizationId: z.string()}`.
A non-object input is rejected outright; for an object, all field
violations are collected (in schema key order), as zod does. -/
def FormSchema.safeParse (v : JValue) : Except (List Issue) FormData :=
  match v with
  | JValue.obj fields =>
      match checkName fields, checkString fields "templateId",
            checkPrivate fields, checkString fields "appAuthorizationId" with
      | .ok n, .ok t, .ok pr, .ok a => .ok ⟨n, t, pr, a⟩
      | r1, r2, r3, r4 =>
          .error (issuesOf r1 ++ issuesOf r2 ++ issuesOf r3 ++ issuesOf r4)
  | _ => .error [.invalidType "" "object"]

/-- The components of a parsed URL that the service reads. -/
structure URLObj where
  scheme : String
  host : String
  pathname : String
deriving DecidableEq

/-- Split a character list at every occurrence of a separator character,
like JavaScript's `String.prototype.split` with a one-character separator:
`splitChar '/' "a/b".data = ["a".data, "b".data]`, and the empty list
splits to one empty piece. -/
def splitChar (sep : Char) : List Char → List (List Char)
  | [] => [[]]
  | c :: cs =>
      match splitChar sep cs with
      | [] => [[]]
      | r :: rs => if c = sep then [] :: r :: rs else (c :: r) :: rs

/-- JavaScript's `s.split(sep)` for a one-character separator, on Lean
strings. -/
def jsSplit (s : String) (sep : Char) : List String :=
  (splitChar sep s.data).map (fun cs => ⟨cs⟩)

/-- Models the WHATWG `new URL(...)` constructor for the URL shapes this
service handles (absolute `scheme://host/path` URLs): `none` models the
constructor throwing `TypeError`.  The scheme is everything before the
first `:`, which must be followed by `//` and a non-empty host; the
pathname is everything from the first `/` after the host up to any query
or fragment, and is `/` when the URL has no path. -/
def parseURL (s : String) : Option URLObj :=
  let chars := s.data
  let scheme := chars.takeWhile (fun c => c ≠ ':')
  if scheme.length = chars.length then none
  else if scheme.isEmpty then none
  else
    let afterColon := chars.drop (scheme.length + 1)
    if afterColon.take 2 = ['/', '/'] then
      let rest := afterColon.drop 2
      let rest := rest.takeWhile (fun c => c ≠ '#')
      let rest := rest.takeWhile (fun c => c ≠ '?')
      let host := rest.takeWhile (fun c => c ≠ '/')
      if host.isEmpty then none
      else
        let path := rest.drop host.length
        some ⟨⟨scheme⟩, ⟨host⟩, if path.isEmpty then "/" else ⟨path⟩⟩
    else none

/-- `url.pathname.split("/").slice(1)` from the source: the path split at
every slash, with the leading component (empty, since the pathname starts
with `/`) dropped. -/
def pathSegments (url : URLObj) : List String :=
  (jsSplit url.pathname '/').drop 1

/-- The parsed account value (`AccountSchema` infers at least a login). -/
structure Account where
  login : String
deriving DecidableEq

/-- Modelled from the spec: `AccountSchema` lives in
`../github/githubApp.server` which is not under `src/`; per the spec it
validates an opaque account value against `{login: string, ...}`.  Parsing
succeeds exactly when the value is an object whose `login` field is a
string. -/
def AccountSchema.safeParse (v : JValue) : Option Account :=
  match v with
  | JValue.obj fields =>
      match lookupField fields "login" with
      | some (JValue.str l) => some ⟨l⟩
      | _ => none
  | _ => none

/-- A stored `GitHubAppAuthorization` record, as read by this service. -/
structure AppAuthorization where
  id : String
  installationId : Int
  account : JValue

/-- A stored `Template` record, as read by this service. -/
structure Template where
  id : String
  repositoryUrl : String
deriving DecidableEq

/-- The GitHub API response for the created repository: the `html_url`
field the service reads, plus the rest of the response, stored whole as
`repositoryData`. -/
structure GithubRepository where
  html_url : String
  rest : JValue

/-- The argument object passed to `createRepositoryFromTemplate`.  The
owner/repo extracted by array destructuring can be `undefined` in JS, hence
`Option String`. -/
structure CreateRepoArgs where
  template_owner : Option String
  template_repo : Option String
  owner : String
  name : String
  «private» : Bool
deriving DecidableEq

/-- The auth options passed to `createRepositoryFromTemplate`. -/
structure InstallOpts where
  installationId : Int
deriving DecidableEq

/-- The data of the `organizationTemplate.create` call: scalar fields plus
the three `connect` relation keys.  The created record returned by the
database is modelled as this same data. -/
structure OrganizationTemplate where
  name : String
  repositoryUrl : String
  repositoryData : GithubRepository
  templateId : String
  «private» : Bool
  organizationSlug : String
  appAuthorizationId : String

/-- The environment of collaborator responses for one invocation:
the two Prisma `findUnique` reads, whether the module-level `octokit`
client is configured (modelled from the spec: `octokit` lives in
`githubApp.server`, not under `src/`; per the spec it is a capability that
is either present or absent), and the response of the external
`createRepositoryFromTemplate` call (modelled from the spec: it returns
repository metadata or a failure signal, here `Option`). -/
structure Env where
  gitHubAppAuthorizationFindUnique : String → Option AppAuthorization
  templateFindUnique : String → Option Template
  octokitConfigured : Bool
  createRepositoryFromTemplate : CreateRepoArgs → InstallOpts → Option GithubRepository

/-- One effect issued by the service, in order: a database read, the
external API call, or the single database write. -/
inductive Event where
  | findAppAuthorization (id : String)
  | findTemplate (id : String)
  | externalCreateRepo (args : CreateRepoArgs) (opts : InstallOpts)
  | dbCreateOrganizationTemplate (d : OrganizationTemplate)

/-- The outcome of `call`: the tagged union the source returns, plus a
`thrown` outcome modelling an exception escaping `call` (the source has no
try/catch, so `new URL(...)` throwing propagates out). -/
inductive CallResult where
  | error (message : String)
  | success (template : OrganizationTemplate)
  | thrown (message : String)

/-- The `createRepositoryFromTemplate` argument object built at lines
98–107 of the source: owner/repo are the first two elements of
`pathname.split("/").slice(1)`, destination owner is the account login,
name and privacy come from the parsed payload. -/
def repoArgs (url : URLObj) (account : Account) (data : FormData) : CreateRepoArgs :=
  { template_owner := (pathSegments url).get? 0
    template_repo := (pathSegments url).get? 1
    owner := account.login
    name := data.name
    «private» := data.«private» == some "on" }

/-- The data of the `organizationTemplate.create` call at lines 116–139 of
the source, built from the parsed payload, the API response and the
organization slug. -/
def mkOrganizationTemplate (data : FormData) (githubRepository : GithubRepository)
    (organizationSlug : String) : OrganizationTemplate :=
  { name := data.name
    repositoryUrl := githubRepository.html_url
    repositoryData := githubRepository
    templateId := data.templateId
    «private» := data.«private» == some "on"
    organizationSlug := organizationSlug
    appAuthorizationId := data.appAuthorizationId }

/-- `AddTemplateService.call(userId, organizationSlug, payload)`, translated
line by line from the source; returns the result together with the trace of
effects issued, in order. -/
def AddTemplateService.call (env : Env) (userId : String) (organizationSlug : String)
    (payload : JValue) : CallResult × List Event :=
  match FormSchema.safeParse payload with
  | .error issues => (.error (generateErrorMessage issues), [])
  | .ok data =>
      let tr1 := [Event.findAppAuthorization data.appAuthorizationId]
      match env.gitHubAppAuthorizationFindUnique data.appAuthorizationId with
      | none => (.error "App authorization not found", tr1)
      | some appAuthorization =>
          let tr2 := tr1 ++ [Event.findTemplate data.templateId]
          match env.templateFindUnique data.templateId with
          | none => (.error "Template not found", tr2)
          | some template =>
              if !env.octokitConfigured then
                (.error "GitHub App not configured", tr2)
              else
                match AccountSchema.safeParse appAuthorization.account with
                | none => (.error "Account not found", tr2)
                | some account =>
                    match parseURL template.repositoryUrl with
                    | none => (.thrown "TypeError: Invalid URL", tr2)
                    | some repositoryUrl =>
                        let args := repoArgs repositoryUrl account data
                        let opts : InstallOpts := ⟨appAuthorization.installationId⟩
                        let tr3 := tr2 ++ [Event.externalCreateRepo args opts]
                        match env.createRepositoryFromTemplate args opts with
                        | none => (.error "Failed to create repository", tr3)
                        | some githubRepository =>
                            let d := mkOrganizationTemplate data githubRepository organizationSlug
                            (.success d, tr3 ++ [Event.dbCreateOrganizationTemplate d])

/-- Whether an event is the database write. -/
def Event.isWrite : Event → Bool
  | .dbCreateOrganizationTemplate _ => true
  | _ => false

/-- The database writes recorded in a trace, in order. -/
def writes (tr : List Event) : List OrganizationTemplate :=
  tr.filterMap fun e =>
    match e with
    | .dbCreateOrganizationTemplate d => some d
    | _ => none

/-- The external `createRepositoryFromTemplate` calls recorded in a trace. -/
def externalCalls (tr : List Event) : List (CreateRepoArgs × InstallOpts) :=
  tr.filterMap fun e =>
    match e with
    | .externalCreateRepo a o => some (a, o)
    | _ => none

/-- Whether a result is the success variant. -/
def CallResult.isSuccess : CallResult → Bool
  | .success _ => true
  | _ => false

/-- Whether a result belongs to the tagged union the source's type declares
(`{type:"error"}` or `{type:"success"}`), as opposed to a thrown exception. -/
def CallResult.isTaggedUnion : CallResult → Bool
  | .error _ => true
  | .success _ => true
  | .thrown _ => false

/-- The acceptance condition of the spec's words, stated independently of
the parser: a value "of shape {name: string of 3 to 100 characters,
templateId: string, private: absent or the literal "on",
appAuthorizationId: string}". -/
def acceptedByShape (v : JValue) : Bool :=
  match v with
  | JValue.obj fields =>
      (match lookupField fields "name" with
       | some (JValue.str s) => decide (3 ≤ s.length) && decide (s.length ≤ 100)
       | _ => false) &&
      (match lookupField fields "templateId" with
       | some (JValue.str _) => true
       | _ => false) &&
      (match lookupField fields "private" with
       | none => true
       | some (JValue.str s) => s == "on"
       | _ => false) &&
      (match lookupField fields "appAuthorizationId" with
       | some (JValue.str _) => true
       | _ => false)
  | _ => false

/-- The number of non-empty path segments of a URL (the reading of
"path segments" under which empty segments do not count). -/
def nonemptySegmentCount (url : URLObj) : Nat :=
  ((pathSegments url).filter (fun s => s ≠ "")).length

/-- A well-formed payload: 11-character name, existing template and
authorization ids, no `private` marker. -/
def payloadOK : JValue :=
  JValue.obj [("name", JValue.str "my-new-repo"),
              ("templateId", JValue.str "tmpl_1"),
              ("appAuthorizationId", JValue.str "auth_1")]

/-- The same payload with the `private` marker set to `"on"`. -/
def payloadPriv : JValue :=
  JValue.obj [("name", JValue.str "my-new-repo"),
              ("templateId", JValue.str "tmpl_1"),
              ("private", JValue.str "on"),
              ("appAuthorizationId", JValue.str "auth_1")]

/-- An invalid payload: `name` too short, `templateId` and
`appAuthorizationId` missing. -/
def payloadBad : JValue :=
  JValue.obj [("name", JValue.str "ab")]

/-- The parse of `payloadOK`. -/
def dataOK : FormData := ⟨"my-new-repo", "tmpl_1", none, "auth_1"⟩

/-- The parse of `payloadPriv`. -/
def dataPriv : FormData := ⟨"my-new-repo", "tmpl_1", some "on", "auth_1"⟩

/-- A stored authorization with a schema-conforming account value. -/
def authOK : AppAuthorization :=
  ⟨"auth_1", 4242, JValue.obj [("login", JValue.str "acme-user"), ("type", JValue.str "User")]⟩

/-- A stored authorization whose account value fails the account schema. -/
def authBadAccount : AppAuthorization := ⟨"auth_1", 4242, JValue.null⟩

/-- A stored template pointing at `https://github.com/acme/base-starter`. -/
def tmplOK : Template := ⟨"tmpl_1", "https://github.com/acme/base-starter"⟩

/-- A stored template whose repository URL is not a well-formed URL. -/
def tmplBadURL : Template := ⟨"tmpl_1", "not a url"⟩

/-- A stored template whose repository URL has a trailing slash after a
single segment. -/
def tmplSlashURL : Template := ⟨"tmpl_1", "https://github.com/acme/"⟩

/-- A stored template whose repository URL has an empty path. -/
def tmplRootURL : Template := ⟨"tmpl_1", "https://github.com/"⟩

/-- The GitHub API response for the created repository. -/
def repoOK : GithubRepository :=
  ⟨"https://github.com/acme/new-repo", JValue.obj [("full_name", JValue.str "acme/new-repo")]⟩

/-- The environment in which every step succeeds. -/
def envOK : Env :=
  { gitHubAppAuthorizationFindUnique := fun i => if i = "auth_1" then some authOK else none
    templateFindUnique := fun i => if i = "tmpl_1" then some tmplOK else none
    octokitConfigured := true
    createRepositoryFromTemplate := fun _ _ => some repoOK }

/-- Environment with no matching authorization record. -/
def envNoAuth : Env := { envOK with gitHubAppAuthorizationFindUnique := fun _ => none }

/-- Environment with no matching template record. -/
def envNoTemplate : Env := { envOK with templateFindUnique := fun _ => none }

/-- Environment whose octokit client is not configured. -/
def envNoOctokit : Env := { envOK with octokitConfigured := false }

/-- Environment whose stored account value fails the account schema. -/
def envBadAccount : Env :=
  { envOK with gitHubAppAuthorizationFindUnique :=
      fun i => if i = "auth_1" then some authBadAccount else none }

/-- Environment whose stored template has a malformed repository URL. -/
def envBadURL : Env :=
  { envOK with templateFindUnique := fun i => if i = "tmpl_1" then some tmplBadURL else none }

/-- Environment whose stored template URL ends in a trailing slash. -/
def envSlashURL : Env :=
  { envOK with templateFindUnique := fun i => if i = "tmpl_1" then some tmplSlashURL else none }

/-- Environment whose stored template URL has an empty path. -/
def envRootURL : Env :=
  { envOK with templateFindUnique := fun i => if i = "tmpl_1" then some tmplRootURL else none }

/-- Environment whose external repository-creation call fails. -/
def envCreateFails : Env :=
  { envOK with createRepositoryFromTemplate := fun _ _ => none }

/-- Exhaustive case analysis of one invocation: exactly which collaborator
responses were consumed, and the exact result and trace, for each of the
eight paths through the source. -/
theorem AddTemplateService.call_cases (env : Env) (u s : String) (p : JValue) :
    (∃ issues, FormSchema.safeParse p = Except.error issues ∧
      AddTemplateService.call env u s p =
        (CallResult.error (generateErrorMessage issues), [])) ∨
    (∃ data, FormSchema.safeParse p = Except.ok data ∧
      env.gitHubAppAuthorizationFindUnique data.appAuthorizationId = none ∧
      AddTemplateService.call env u s p =
        (CallResult.error "App authorization not found",
         [Event.findAppAuthorization data.appAuthorizationId])) ∨
    (∃ data auth, FormSchema.safeParse p = Except.ok data ∧
      env.gitHubAppAuthorizationFindUnique data.appAuthorizationId = some auth ∧
      env.templateFindUnique data.templateId = none ∧
      AddTemplateService.call env u s p =
        (CallResult.error "Template not found",
         [Event.findAppAuthorization data.appAuthorizationId,
          Event.findTemplate data.templateId])) ∨
    (∃ data auth tmpl, FormSchema.safeParse p = Except.ok data ∧
      env.gitHubAppAuthorizationFindUnique data.appAuthorizationId = some auth ∧
      env.templateFindUnique data.templateId = some tmpl ∧
      env.octokitConfigured = false ∧
      AddTemplateService.call env u s p =
        (CallResult.error "GitHub App not configured",
         [Event.findAppAuthorization data.appAuthorizationId,
          Event.findTemplate data.templateId])) ∨
    (∃ data auth tmpl, FormSchema.safeParse p = Except.ok data ∧
      env.gitHubAppAuthorizationFindUnique data.appAuthorizationId = some auth ∧
      env.templateFindUnique data.templateId = some tmpl ∧
      env.octokitConfigured = true ∧
      AccountSchema.safeParse auth.account = none ∧
      AddTemplateService.call env u s p =
        (CallResult.error "Account not found",
         [Event.findAppAuthorization data.appAuthorizationId,
          Event.findTemplate data.templateId])) ∨
    (∃ data auth tmpl acc, FormSchema.safeParse p = Except.ok data ∧
      env.gitHubAppAuthorizationFindUnique data.appAuthorizationId = some auth ∧
      env.templateFindUnique data.templateId = some tmpl ∧
      env.octokitConfigured = true ∧
      AccountSchema.safeParse auth.account = some acc ∧
      parseURL tmpl.repositoryUrl = none ∧
      AddTemplateService.call env u s p =
        (CallResult.thrown "TypeError: Invalid URL",
         [Event.findAppAuthorization data.appAuthorizationId,
          Event.findTemplate data.templateId])) ∨
    (∃ data auth tmpl acc url, FormSchema.safeParse p = Except.ok data ∧
      env.gitHubAppAuthorizationFindUnique data.appAuthorizationId = some auth ∧
      env.templateFindUnique data.templateId = some tmpl ∧
      env.octokitConfigured = true ∧
      AccountSchema.safeParse auth.account = some acc ∧
      parseURL tmpl.repositoryUrl = some url ∧
      env.createRepositoryFromTemplate (repoArgs url acc data) ⟨auth.installationId⟩ = none ∧
      AddTemplateService.call env u s p =
        (CallResult.error "Failed to create repository",
         [Event.findAppAuthorization data.appAuthorizationId,
          Event.findTemplate data.templateId,
          Event.externalCreateRepo (repoArgs url acc data) ⟨auth.installationId⟩])) ∨
    (∃ data auth tmpl acc url g, FormSchema.safeParse p = Except.ok data ∧
      env.gitHubAppAuthorizationFindUnique data.appAuthorizationId = some auth ∧
      env.templateFindUnique data.templateId = some tmpl ∧
      env.octokitConfigured = true ∧
      AccountSchema.safeParse auth.account = some acc ∧
      parseURL tmpl.repositoryUrl = some url ∧
      env.createRepositoryFromTemplate (repoArgs url acc data) ⟨auth.installationId⟩ = some g ∧
      AddTemplateService.call env u s p =
        (CallResult.success (mkOrganizationTemplate data g s),
         [Event.findAppAuthorization data.appAuthorizationId,
          Event.findTemplate data.templateId,
          Event.externalCreateRepo (repoArgs url acc data) ⟨auth.installationId⟩,
          Event.dbCreateOrganizationTemplate (mkOrganizationTemplate data g s)])) := by
  rcases hp : FormSchema.safeParse p with issues | data
  · exact Or.inl ⟨issues, rfl, by simp [AddTemplateService.call, hp]⟩
  · rcases hauth : env.gitHubAppAuthorizationFindUnique data.appAuthorizationId with _ | auth
    · exact Or.inr (Or.inl ⟨data, rfl, hauth, by simp [AddTemplateService.call, hp, hauth]⟩)
    · rcases htmpl : env.templateFindUnique data.templateId with _ | tmpl
      · exact Or.inr (Or.inr (Or.inl ⟨data, auth, rfl, hauth, htmpl,
          by simp [AddTemplateService.call, hp, hauth, htmpl]⟩))
      · rcases hoct : env.octokitConfigured with _ | _
        · exact Or.inr (Or.inr (Or.inr (Or.inl ⟨data, auth, tmpl, rfl, hauth, htmpl, rfl,
            by simp [AddTemplateService.call, hp, hauth, htmpl, hoct]⟩)))
        · rcases hacc : AccountSchema.safeParse auth.account with _ | acc
          · exact Or.inr (Or.inr (Or.inr (Or.inr (Or.inl ⟨data, auth, tmpl, rfl, hauth, htmpl,
              rfl, hacc, by simp [AddTemplateService.call, hp, hauth, htmpl, hoct, hacc]⟩))))
          · rcases hurl : parseURL tmpl.repositoryUrl with _ | url
            · exact Or.inr (Or.inr (Or.inr (Or.inr (Or.inr (Or.inl ⟨data, auth, tmpl, acc,
                rfl, hauth, htmpl, rfl, hacc, hurl,
                by simp [AddTemplateService.call, hp, hauth, htmpl, hoct, hacc, hurl]⟩)))))
            · rcases hcr : env.createRepositoryFromTemplate (repoArgs url acc data)
                ⟨auth.installationId⟩ with _ | g
              · exact Or.inr (Or.inr (Or.inr (Or.inr (Or.inr (Or.inr (Or.inl ⟨data, auth,
                  tmpl, acc, url, rfl, hauth, htmpl, rfl, hacc, hurl, hcr,
                  by simp [AddTemplateService.call, hp, hauth, htmpl, hoct, hacc, hurl, hcr]⟩))))))
              · exact Or.inr (Or.inr (Or.inr (Or.inr (Or.inr (Or.inr (Or.inr ⟨data, auth,
                  tmpl, acc, url, g, rfl, hauth, htmpl, rfl, hacc, hurl, hcr,
                  by simp [AddTemplateService.call, hp, hauth, htmpl, hoct, hacc, hurl, hcr]⟩))))))

/-- A `checkPrivate` success yields either an absent marker or the literal
`"on"`. -/
theorem checkPrivate_ok (fields : List (String × JValue)) (pr : Option String)
    (h : checkPrivate fields = Except.ok pr) : pr = none ∨ pr = some "on" := by
  unfold checkPrivate at h
  split at h
  · exact Or.inl (by injection h with h; exact h.symm)
  · split at h
    · exact Or.inr (by injection h with h; exact h.symm)
    · cases h
  · cases h

/-- Any successfully parsed form data has `private` absent or `"on"`. -/
theorem safeParse_ok_private {v : JValue} {d : FormData}
    (h : FormSchema.safeParse v = Except.ok d) :
    d.«private» = none ∨ d.«private» = some "on" := by
  unfold FormSchema.safeParse at h
  cases v <;> simp at h
  case obj fields =>
    rcases h1 : checkName fields with i1 | n <;>
    rcases h2 : checkString fields "templateId" with i2 | t <;>
    rcases h3 : checkPrivate fields with i3 | pr <;>
    rcases h4 : checkString fields "appAuthorizationId" with i4 | a <;>
      simp [h1, h2, h3, h4] at h
    cases h
    exact checkPrivate_ok fields pr h3

/-- The `name` check succeeds exactly on strings of 3 to 100 characters. -/
theorem checkName_isOk (fields : List (String × JValue)) :
    (checkName fields).isOk =
      (match lookupField fields "name" with
       | some (JValue.str s) => decide (3 ≤ s.length) && decide (s.length ≤ 100)
       | _ => false) := by
  unfold checkName
  rcases h : lookupField fields "name" with _ | v
  · rfl
  · cases v <;> try rfl
    case str s =>
      rw [Bool.eq_iff_iff]
      simp only [Except.isOk, Except.toBool]
      split_ifs with h1 h2 <;> simp <;> omega

/-- A plain string check succeeds exactly on present string fields. -/
theorem checkString_isOk (fields : List (String × JValue)) (k : String) :
    (checkString fields k).isOk =
      (match lookupField fields k with
       | some (JValue.str _) => true
       | _ => false) := by
  unfold checkString
  rcases h : lookupField fields k with _ | v
  · rfl
  · cases v <;> rfl

/-- The `private` check succeeds exactly on an absent field or `"on"`. -/
theorem checkPrivate_isOk (fields : List (String × JValue)) :
    (checkPrivate fields).isOk =
      (match lookupField fields "private" with
       | none => true
       | some (JValue.str s) => s == "on"
       | _ => false) := by
  unfold checkPrivate
  rcases h : lookupField fields "private" with _ | v
  · rfl
  · cases v <;> try rfl
    case str s =>
      rw [Bool.eq_iff_iff]
      simp only [Except.isOk, Except.toBool]
      split_ifs with h1 <;> simp [h1]

/-- An object parses successfully exactly when all four field checks do. -/
theorem safeParse_obj_isOk (fields : List (String × JValue)) :
    (FormSchema.safeParse (JValue.obj fields)).isOk =
      ((checkName fields).isOk && (checkString fields "templateId").isOk &&
       (checkPrivate fields).isOk && (checkString fields "appAuthorizationId").isOk) := by
  rcases h1 : checkName fields with i1 | n <;>
  rcases h2 : checkString fields "templateId" with i2 | t <;>
  rcases h3 : checkPrivate fields with i3 | pr <;>
  rcases h4 : checkString fields "appAuthorizationId" with i4 | a <;>
    simp [FormSchema.safeParse, h1, h2, h3, h4, Except.isOk, Except.toBool]

/-- The schema parser succeeds exactly on the values the spec's shape
describes. -/
theorem safeParse_isOk (v : JValue) :
    (FormSchema.safeParse v).isOk = acceptedByShape v := by
  cases v <;> try rfl
  case obj fields =>
    rw [safeParse_obj_isOk, checkName_isOk, checkString_isOk, checkPrivate_isOk,
        checkString_isOk]
    rfl

/-- Claim C1: an OrganizationTemplate write occurs if and only if the
external create-repository-from-template call was issued and returned a
repository; the result is a success exactly when the write occurred, no
failure path issues any write, and on success the single write is the
final effect of the invocation. -/
theorem addTemplate_write_iff_external_success (env : Env) (u s : String) (p : JValue) :
    (writes (AddTemplateService.call env u s p).2 =
      match (AddTemplateService.call env u s p).1 with
      | CallResult.success d => [d]
      | _ => []) ∧
    (writes (AddTemplateService.call env u s p).2 ≠ [] ↔
      ∃ a o g, (a, o) ∈ externalCalls (AddTemplateService.call env u s p).2 ∧
        env.createRepositoryFromTemplate a o = some g) ∧
    (∀ d, (AddTemplateService.call env u s p).1 = CallResult.success d →
      (AddTemplateService.call env u s p).2.getLast? =
        some (Event.dbCreateOrganizationTemplate d)) := by
  rcases AddTemplateService.call_cases env u s p with
    ⟨issues, hp, hc⟩ | ⟨data, hp, h1, hc⟩ | ⟨data, auth, hp, h1, h2, hc⟩ |
    ⟨data, auth, tmpl, hp, h1, h2, h3, hc⟩ | ⟨data, auth, tmpl, hp, h1, h2, h3, h4, hc⟩ |
    ⟨data, auth, tmpl, acc, hp, h1, h2, h3, h4, h5, hc⟩ |
    ⟨data, auth, tmpl, acc, url, hp, h1, h2, h3, h4, h5, h6, hc⟩ |
    ⟨data, auth, tmpl, acc, url, g, hp, h1, h2, h3, h4, h5, h6, hc⟩ <;>
    rw [hc] <;> simp [writes, externalCalls, *]
  exact ⟨_, _, ⟨rfl, rfl⟩, g, h6⟩

/-- Witness for claim C1 at concrete environments: the succeeding run
writes exactly the built record as its last effect, and a failing run
writes nothing. -/
theorem addTemplate_write_iff_external_success_witness :
    writes (AddTemplateService.call envOK "user_1" "acme-org" payloadOK).2 =
      [mkOrganizationTemplate dataOK repoOK "acme-org"] ∧
    writes (AddTemplateService.call envNoAuth "user_1" "acme-org" payloadOK).2 = [] ∧
    (AddTemplateService.call envOK "user_1" "acme-org" payloadOK).2.getLast? =
      some (Event.dbCreateOrganizationTemplate
        (mkOrganizationTemplate dataOK repoOK "acme-org")) := by
  refine ⟨?_, ?_,
    (addTemplate_write_iff_external_success envOK "user_1" "acme-org" payloadOK).2.2
      (mkOrganizationTemplate dataOK repoOK "acme-org") rfl⟩
  · have h := (addTemplate_write_iff_external_success envOK "user_1" "acme-org" payloadOK).1
    rw [h]
    rfl
  · have h := (addTemplate_write_iff_external_success envNoAuth "user_1" "acme-org" payloadOK).1
    rw [h]
    rfl

/-- Claim C2: when the payload parses, both lookups succeed, the client is
configured, the account parses, the template URL parses, and the external
call returns a repository, `call` returns success with a record whose name
is the payload name, whose repositoryUrl is the returned `html_url`, whose
repositoryData is the full response, whose private flag is set exactly when
the payload's private marker was present, and which connects to the
template by templateId, the organization by slug and the authorization by
appAuthorizationId. -/
theorem addTemplate_success_record (env : Env) (u s : String) (p : JValue)
    (data : FormData) (auth : AppAuthorization) (tmpl : Template) (acc : Account)
    (url : URLObj) (repo : GithubRepository)
    (hp : FormSchema.safeParse p = Except.ok data)
    (hauth : env.gitHubAppAuthorizationFindUnique data.appAuthorizationId = some auth)
    (htmpl : env.templateFindUnique data.templateId = some tmpl)
    (hoct : env.octokitConfigured = true)
    (hacc : AccountSchema.safeParse auth.account = some acc)
    (hurl : parseURL tmpl.repositoryUrl = some url)
    (hcr : env.createRepositoryFromTemplate (repoArgs url acc data) ⟨auth.installationId⟩ =
      some repo) :
    (AddTemplateService.call env u s p).1 =
      CallResult.success
        { name := data.name
          repositoryUrl := repo.html_url
          repositoryData := repo
          templateId := data.templateId
          «private» := data.«private».isSome
          organizationSlug := s
          appAuthorizationId := data.appAuthorizationId } := by
  have hpriv : (data.«private» == some "on") = data.«private».isSome := by
    rcases safeParse_ok_private hp with h | h <;> rw [h] <;> rfl
  simp [AddTemplateService.call, hp, hauth, htmpl, hoct, hacc, hurl, hcr,
        mkOrganizationTemplate, hpriv]

/-- Witness for claim C2 at a concrete environment, once without and once
with the private marker. -/
theorem addTemplate_success_record_witness :
    (AddTemplateService.call envOK "user_1" "acme-org" payloadOK).1 =
      CallResult.success
        { name := "my-new-repo", repositoryUrl := "https://github.com/acme/new-repo",
          repositoryData := repoOK, templateId := "tmpl_1", «private» := false,
          organizationSlug := "acme-org", appAuthorizationId := "auth_1" } ∧
    (AddTemplateService.call envOK "user_1" "acme-org" payloadPriv).1 =
      CallResult.success
        { name := "my-new-repo", repositoryUrl := "https://github.com/acme/new-repo",
          repositoryData := repoOK, templateId := "tmpl_1", «private» := true,
          organizationSlug := "acme-org", appAuthorizationId := "auth_1" } :=
  ⟨addTemplate_success_record envOK "user_1" "acme-org" payloadOK dataOK authOK tmplOK
      ⟨"acme-user"⟩ ⟨"https", "github.com", "/acme/base-starter"⟩ repoOK
      rfl rfl rfl rfl rfl rfl rfl,
   addTemplate_success_record envOK "user_1" "acme-org" payloadPriv dataPriv authOK tmplOK
      ⟨"acme-user"⟩ ⟨"https", "github.com", "/acme/base-starter"⟩ repoOK
      rfl rfl rfl rfl rfl rfl rfl⟩

/-- Counterexample to claim C3 as stated: with a stored template whose
repositoryUrl is not a well-formed URL, `new URL(...)` throws and the
exception escapes `call` (the source has no try/catch around it), so the
result is not a value of the tagged union. -/
theorem addTemplate_thrown_on_invalid_url :
    AddTemplateService.call envBadURL "user_1" "acme-org" payloadOK =
      (CallResult.thrown "TypeError: Invalid URL",
       [Event.findAppAuthorization "auth_1", Event.findTemplate "tmpl_1"]) ∧
    (AddTemplateService.call envBadURL "user_1" "acme-org" payloadOK).1.isTaggedUnion = false :=
  ⟨rfl, rfl⟩

/-- Claim C3 as amended: provided every stored template record carries a
well-formed repository URL, `call` terminates with a value of the
tagged-union result shape for every input and every combination of
collaborator responses; each failure is converted into the error result at
its point of occurrence and nothing escapes `call`. -/
theorem addTemplate_tagged_union_result (env : Env) (u s : String) (p : JValue)
    (hwf : ∀ id t, env.templateFindUnique id = some t →
      (parseURL t.repositoryUrl).isSome = true) :
    (AddTemplateService.call env u s p).1.isTaggedUnion = true := by
  rcases AddTemplateService.call_cases env u s p with
    ⟨issues, hp, hc⟩ | ⟨data, hp, h1, hc⟩ | ⟨data, auth, hp, h1, h2, hc⟩ |
    ⟨data, auth, tmpl, hp, h1, h2, h3, hc⟩ | ⟨data, auth, tmpl, hp, h1, h2, h3, h4, hc⟩ |
    ⟨data, auth, tmpl, acc, hp, h1, h2, h3, h4, h5, hc⟩ |
    ⟨data, auth, tmpl, acc, url, hp, h1, h2, h3, h4, h5, h6, hc⟩ |
    ⟨data, auth, tmpl, acc, url, g, hp, h1, h2, h3, h4, h5, h6, hc⟩ <;> rw [hc] <;> try rfl
  have hw := hwf _ _ h2
  rw [h5] at hw
  simp at hw

/-- Witness for the amended claim C3 at a concrete well-formed
environment. -/
theorem addTemplate_tagged_union_result_witness :
    (AddTemplateService.call envOK "user_1" "acme-org" payloadOK).1.isTaggedUnion = true :=
  addTemplate_tagged_union_result envOK "user_1" "acme-org" payloadOK (by
    intro id t h
    simp only [envOK] at h
    split at h
    · cases h; rfl
    · cases h)

/-- Claim C4: the `template_owner` and `template_repo` arguments of the
external call are exactly the first and second segments of the template
URL's path as split at slashes; in particular, a template stored with URL
`https://github.com/acme/base-starter` makes `call` issue the external
call with owner `acme` and repo `base-starter`. -/
theorem addTemplate_owner_repo_extraction :
    (∀ (url : URLObj) (acc : Account) (d : FormData),
      (repoArgs url acc d).template_owner = (pathSegments url).get? 0 ∧
      (repoArgs url acc d).template_repo = (pathSegments url).get? 1) ∧
    (∀ (env : Env) (u s : String) (p : JValue) (data : FormData)
       (auth : AppAuthorization) (tmpl : Template) (acc : Account),
      FormSchema.safeParse p = Except.ok data →
      env.gitHubAppAuthorizationFindUnique data.appAuthorizationId = some auth →
      env.templateFindUnique data.templateId = some tmpl →
      env.octokitConfigured = true →
      AccountSchema.safeParse auth.account = some acc →
      tmpl.repositoryUrl = "https://github.com/acme/base-starter" →
      externalCalls (AddTemplateService.call env u s p).2 =
        [(⟨some "acme", some "base-starter", acc.login, data.name,
           data.«private» == some "on"⟩,
          ⟨auth.installationId⟩)]) := by
  constructor
  · intro url acc d
    exact ⟨rfl, rfl⟩
  · intro env u s p data auth tmpl acc hp hauth htmpl hoct hacc hru
    have hurl : parseURL tmpl.repositoryUrl =
        some ⟨"https", "github.com", "/acme/base-starter"⟩ := by
      rw [hru]
      rfl
    have hargs : repoArgs ⟨"https", "github.com", "/acme/base-starter"⟩ acc data =
        ⟨some "acme", some "base-starter", acc.login, data.name,
         data.«private» == some "on"⟩ := rfl
    have hext : externalCalls (AddTemplateService.call env u s p).2 =
        [(repoArgs ⟨"https", "github.com", "/acme/base-starter"⟩ acc data,
          ⟨auth.installationId⟩)] := by
      rcases hcr : env.createRepositoryFromTemplate
          (repoArgs ⟨"https", "github.com", "/acme/base-starter"⟩ acc data)
          ⟨auth.installationId⟩ with _ | g <;>
        simp [AddTemplateService.call, hp, hauth, htmpl, hoct, hacc, hurl, hcr, externalCalls]
    rw [hext, hargs]

/-- Witness for claim C4 at a concrete environment. -/
theorem addTemplate_owner_repo_extraction_witness :
    externalCalls (AddTemplateService.call envOK "user_1" "acme-org" payloadOK).2 =
      [(⟨some "acme", some "base-starter", "acme-user", "my-new-repo", false⟩, ⟨4242⟩)] :=
  addTemplate_owner_repo_extraction.2 envOK "user_1" "acme-org" payloadOK dataOK authOK tmplOK
    ⟨"acme-user"⟩ rfl rfl rfl rfl rfl rfl

/-- Claim C5: the schema accepts exactly the values of shape
{name: string of 3 to 100 characters, templateId: string, private: absent
or the literal "on", appAuthorizationId: string}; on any rejected payload
`call` returns an error whose message renders all collected schema
violations, having issued no lookup, external call or write. -/
theorem addTemplate_schema_gate (v : JValue) :
    ((FormSchema.safeParse v).isOk = acceptedByShape v) ∧
    (∀ issues, FormSchema.safeParse v = Except.error issues →
      ∀ (env : Env) (u s : String),
        AddTemplateService.call env u s v =
          (CallResult.error (generateErrorMessage issues), [])) := by
  refine ⟨safeParse_isOk v, ?_⟩
  intro issues hiss env u s
  simp [AddTemplateService.call, hiss]

/-- Witness for claim C5 at a concrete invalid payload: rejected by the
shape, and `call` returns the rendered issues with an empty trace. -/
theorem addTemplate_schema_gate_witness :
    acceptedByShape payloadBad = false ∧
    AddTemplateService.call envOK "user_1" "acme-org" payloadBad =
      (CallResult.error (generateErrorMessage
        [Issue.tooSmall "name" 3, Issue.required "templateId",
         Issue.required "appAuthorizationId"]), []) := by
  constructor
  · rw [← (addTemplate_schema_gate payloadBad).1]
    rfl
  · exact (addTemplate_schema_gate payloadBad).2
      [Issue.tooSmall "name" 3, Issue.required "templateId",
       Issue.required "appAuthorizationId"] rfl envOK "user_1" "acme-org"

/-- Claim C6: for a valid payload the four pre-call checks run in the
fixed order authorization lookup, template lookup, client configured,
account schema; the first failing check determines the error message
("App authorization not found" even when the template is also missing,
then "Template not found", "GitHub App not configured", "Account not
found"), and the recorded effects show that no later step runs. -/
theorem addTemplate_precheck_order (env : Env) (u s : String) (p : JValue) (data : FormData)
    (hp : FormSchema.safeParse p = Except.ok data) :
    (env.gitHubAppAuthorizationFindUnique data.appAuthorizationId = none →
      AddTemplateService.call env u s p =
        (CallResult.error "App authorization not found",
         [Event.findAppAuthorization data.appAuthorizationId])) ∧
    (∀ auth, env.gitHubAppAuthorizationFindUnique data.appAuthorizationId = some auth →
      env.templateFindUnique data.templateId = none →
      AddTemplateService.call env u s p =
        (CallResult.error "Template not found",
         [Event.findAppAuthorization data.appAuthorizationId,
          Event.findTemplate data.templateId])) ∧
    (∀ auth tmpl, env.gitHubAppAuthorizationFindUnique data.appAuthorizationId = some auth →
      env.templateFindUnique data.templateId = some tmpl →
      env.octokitConfigured = false →
      AddTemplateService.call env u s p =
        (CallResult.error "GitHub App not configured",
         [Event.findAppAuthorization data.appAuthorizationId,
          Event.findTemplate data.templateId])) ∧
    (∀ auth tmpl, env.gitHubAppAuthorizationFindUnique data.appAuthorizationId = some auth →
      env.templateFindUnique data.templateId = some tmpl →
      env.octokitConfigured = true →
      AccountSchema.safeParse auth.account = none →
      AddTemplateService.call env u s p =
        (CallResult.error "Account not found",
         [Event.findAppAuthorization data.appAuthorizationId,
          Event.findTemplate data.templateId])) :=
  ⟨fun h1 => by simp [AddTemplateService.call, hp, h1],
   fun auth h1 h2 => by simp [AddTemplateService.call, hp, h1, h2],
   fun auth tmpl h1 h2 h3 => by simp [AddTemplateService.call, hp, h1, h2, h3],
   fun auth tmpl h1 h2 h3 h4 => by simp [AddTemplateService.call, hp, h1, h2, h3, h4]⟩

/-- Witness for claim C6: the four first-failure messages at concrete
environments, with the traces showing which lookups ran. -/
theorem addTemplate_precheck_order_witness :
    AddTemplateService.call envNoAuth "user_1" "acme-org" payloadOK =
      (CallResult.error "App authorization not found", [Event.findAppAuthorization "auth_1"]) ∧
    AddTemplateService.call envNoTemplate "user_1" "acme-org" payloadOK =
      (CallResult.error "Template not found",
       [Event.findAppAuthorization "auth_1", Event.findTemplate "tmpl_1"]) ∧
    AddTemplateService.call envNoOctokit "user_1" "acme-org" payloadOK =
      (CallResult.error "GitHub App not configured",
       [Event.findAppAuthorization "auth_1", Event.findTemplate "tmpl_1"]) ∧
    AddTemplateService.call envBadAccount "user_1" "acme-org" payloadOK =
      (CallResult.error "Account not found",
       [Event.findAppAuthorization "auth_1", Event.findTemplate "tmpl_1"]) :=
  ⟨(addTemplate_precheck_order envNoAuth "user_1" "acme-org" payloadOK dataOK rfl).1 rfl,
   (addTemplate_precheck_order envNoTemplate "user_1" "acme-org" payloadOK dataOK rfl).2.1
     authOK rfl rfl,
   (addTemplate_precheck_order envNoOctokit "user_1" "acme-org" payloadOK dataOK rfl).2.2.1
     authOK tmplOK rfl rfl rfl,
   (addTemplate_precheck_order envBadAccount "user_1" "acme-org" payloadOK dataOK rfl).2.2.2
     authBadAccount tmplOK rfl rfl rfl rfl⟩

/-- Claim C7: when every pre-call check passes but the external
create-repository-from-template call returns no repository, `call`
returns the error "Failed to create repository" and no
OrganizationTemplate write occurs. -/
theorem addTemplate_external_failure (env : Env) (u s : String) (p : JValue)
    (data : FormData) (auth : AppAuthorization) (tmpl : Template) (acc : Account) (url : URLObj)
    (hp : FormSchema.safeParse p = Except.ok data)
    (hauth : env.gitHubAppAuthorizationFindUnique data.appAuthorizationId = some auth)
    (htmpl : env.templateFindUnique data.templateId = some tmpl)
    (hoct : env.octokitConfigured = true)
    (hacc : AccountSchema.safeParse auth.account = some acc)
    (hurl : parseURL tmpl.repositoryUrl = some url)
    (hcr : env.createRepositoryFromTemplate (repoArgs url acc data) ⟨auth.installationId⟩ =
      none) :
    AddTemplateService.call env u s p =
      (CallResult.error "Failed to create repository",
       [Event.findAppAuthorization data.appAuthorizationId,
        Event.findTemplate data.templateId,
        Event.externalCreateRepo (repoArgs url acc data) ⟨auth.installationId⟩]) ∧
    writes (AddTemplateService.call env u s p).2 = [] := by
  have hc : AddTemplateService.call env u s p =
      (CallResult.error "Failed to create repository",
       [Event.findAppAuthorization data.appAuthorizationId,
        Event.findTemplate data.templateId,
        Event.externalCreateRepo (repoArgs url acc data) ⟨auth.installationId⟩]) := by
    simp [AddTemplateService.call, hp, hauth, htmpl, hoct, hacc, hurl, hcr]
  refine ⟨hc, ?_⟩
  rw [hc]
  rfl

/-- Witness for claim C7 at a concrete environment whose external call
fails. -/
theorem addTemplate_external_failure_witness :
    AddTemplateService.call envCreateFails "user_1" "acme-org" payloadOK =
      (CallResult.error "Failed to create repository",
       [Event.findAppAuthorization "auth_1", Event.findTemplate "tmpl_1",
        Event.externalCreateRepo
          ⟨some "acme", some "base-starter", "acme-user", "my-new-repo", false⟩ ⟨4242⟩]) ∧
    writes (AddTemplateService.call envCreateFails "user_1" "acme-org" payloadOK).2 = [] :=
  addTemplate_external_failure envCreateFails "user_1" "acme-org" payloadOK dataOK authOK
    tmplOK ⟨"acme-user"⟩ ⟨"https", "github.com", "/acme/base-starter"⟩
    rfl rfl rfl rfl rfl rfl rfl

/-- Claim C8: two invocations differing only in userId return the same
result and issue the same effects — `call` never reads userId. -/
theorem addTemplate_result_independent_of_userId (env : Env) (u1 u2 s : String) (p : JValue) :
    AddTemplateService.call env u1 s p = AddTemplateService.call env u2 s p := rfl

/-- Claim C9: organizationSlug is never read before the external call —
the reads and the external call (with its arguments) are identical for any
two slugs, every error outcome is identical, and on success the slug's
only use is as the connect key of the final create's record. -/
theorem addTemplate_slug_only_final_write (env : Env) (u s1 s2 : String) (p : JValue) :
    ((AddTemplateService.call env u s1 p).2.filter (fun e => !e.isWrite) =
      (AddTemplateService.call env u s2 p).2.filter (fun e => !e.isWrite)) ∧
    (∀ m, (AddTemplateService.call env u s1 p).1 = CallResult.error m ↔
          (AddTemplateService.call env u s2 p).1 = CallResult.error m) ∧
    (∀ d, (AddTemplateService.call env u s1 p).1 = CallResult.success d →
      d.organizationSlug = s1 ∧
      (AddTemplateService.call env u s2 p).1 =
        CallResult.success { d with organizationSlug := s2 }) := by
  rcases AddTemplateService.call_cases env u s1 p with
    ⟨issues, hp, hc⟩ | ⟨data, hp, h1, hc⟩ | ⟨data, auth, hp, h1, h2, hc⟩ |
    ⟨data, auth, tmpl, hp, h1, h2, h3, hc⟩ | ⟨data, auth, tmpl, hp, h1, h2, h3, h4, hc⟩ |
    ⟨data, auth, tmpl, acc, hp, h1, h2, h3, h4, h5, hc⟩ |
    ⟨data, auth, tmpl, acc, url, hp, h1, h2, h3, h4, h5, h6, hc⟩ |
    ⟨data, auth, tmpl, acc, url, g, hp, h1, h2, h3, h4, h5, h6, hc⟩
  · have hc2 : AddTemplateService.call env u s2 p =
        (CallResult.error (generateErrorMessage issues), []) := by
      simp [AddTemplateService.call, hp]
    rw [hc, hc2]
    exact ⟨rfl, fun m => Iff.rfl, fun d hd => by cases hd⟩
  · have hc2 : AddTemplateService.call env u s2 p =
        (CallResult.error "App authorization not found",
         [Event.findAppAuthorization data.appAuthorizationId]) := by
      simp [AddTemplateService.call, hp, h1]
    rw [hc, hc2]
    exact ⟨rfl, fun m => Iff.rfl, fun d hd => by cases hd⟩
  · have hc2 : AddTemplateService.call env u s2 p =
        (CallResult.error "Template not found",
         [Event.findAppAuthorization data.appAuthorizationId,
          Event.findTemplate data.templateId]) := by
      simp [AddTemplateService.call, hp, h1, h2]
    rw [hc, hc2]
    exact ⟨rfl, fun m => Iff.rfl, fun d hd => by cases hd⟩
  · have hc2 : AddTemplateService.call env u s2 p =
        (CallResult.error "GitHub App not configured",
         [Event.findAppAuthorization data.appAuthorizationId,
          Event.findTemplate data.templateId]) := by
      simp [AddTemplateService.call, hp, h1, h2, h3]
    rw [hc, hc2]
    exact ⟨rfl, fun m => Iff.rfl, fun d hd => by cases hd⟩
  · have hc2 : AddTemplateService.call env u s2 p =
        (CallResult.error "Account not found",
         [Event.findAppAuthorization data.appAuthorizationId,
          Event.findTemplate data.templateId]) := by
      simp [AddTemplateService.call, hp, h1, h2, h3, h4]
    rw [hc, hc2]
    exact ⟨rfl, fun m => Iff.rfl, fun d hd => by cases hd⟩
  · have hc2 : AddTemplateService.call env u s2 p =
        (CallResult.thrown "TypeError: Invalid URL",
         [Event.findAppAuthorization data.appAuthorizationId,
          Event.findTemplate data.templateId]) := by
      simp [AddTemplateService.call, hp, h1, h2, h3, h4, h5]
    rw [hc, hc2]
    exact ⟨rfl, fun m => Iff.rfl, fun d hd => by cases hd⟩
  · have hc2 : AddTemplateService.call env u s2 p =
        (CallResult.error "Failed to create repository",
         [Event.findAppAuthorization data.appAuthorizationId,
          Event.findTemplate data.templateId,
          Event.externalCreateRepo (repoArgs url acc data) ⟨auth.installationId⟩]) := by
      simp [AddTemplateService.call, hp, h1, h2, h3, h4, h5, h6]
    rw [hc, hc2]
    exact ⟨rfl, fun m => Iff.rfl, fun d hd => by cases hd⟩
  · have hc2 : AddTemplateService.call env u s2 p =
        (CallResult.success (mkOrganizationTemplate data g s2),
         [Event.findAppAuthorization data.appAuthorizationId,
          Event.findTemplate data.templateId,
          Event.externalCreateRepo (repoArgs url acc data) ⟨auth.installationId⟩,
          Event.dbCreateOrganizationTemplate (mkOrganizationTemplate data g s2)]) := by
      simp [AddTemplateService.call, hp, h1, h2, h3, h4, h5, h6]
    rw [hc, hc2]
    refine ⟨?_, fun m => by simp, fun d hd => ?_⟩
    · simp [Event.isWrite]
    · cases hd
      exact ⟨rfl, rfl⟩

/-- Witness for claim C9: two concrete invocations differing only in the
organization slug issue the same non-write effects and differ only in the
created record's slug. -/
theorem addTemplate_slug_only_final_write_witness :
    ((AddTemplateService.call envOK "user_1" "org_a" payloadOK).2.filter
        (fun e => !e.isWrite) =
      (AddTemplateService.call envOK "user_1" "org_b" payloadOK).2.filter
        (fun e => !e.isWrite)) ∧
    (mkOrganizationTemplate dataOK repoOK "org_a").organizationSlug = "org_a" ∧
    (AddTemplateService.call envOK "user_1" "org_b" payloadOK).1 =
      CallResult.success
        { mkOrganizationTemplate dataOK repoOK "org_a" with organizationSlug := "org_b" } := by
  refine ⟨(addTemplate_slug_only_final_write envOK "user_1" "org_a" "org_b" payloadOK).1, ?_, ?_⟩
  · exact ((addTemplate_slug_only_final_write envOK "user_1" "org_a" "org_b" payloadOK).2.2
      (mkOrganizationTemplate dataOK repoOK "org_a") rfl).1
  · exact ((addTemplate_slug_only_final_write envOK "user_1" "org_a" "org_b" payloadOK).2.2
      (mkOrganizationTemplate dataOK repoOK "org_a") rfl).2

/-- Counterexample to claim C10 as stated: the template URL
`https://github.com/acme/` has exactly one non-empty path segment (fewer
than two), yet `call` passes `template_repo` as the present empty string,
not as undefined/absent: the claim's "fewer than two non-empty path
segments implies template_repo is absent" fails here. -/
theorem addTemplate_trailing_slash_repo_present :
    parseURL "https://github.com/acme/" = some ⟨"https", "github.com", "/acme/"⟩ ∧
    nonemptySegmentCount ⟨"https", "github.com", "/acme/"⟩ = 1 ∧
    externalCalls (AddTemplateService.call envSlashURL "user_1" "acme-org" payloadOK).2 =
      [(⟨some "acme", some "", "acme-user", "my-new-repo", false⟩, ⟨4242⟩)] ∧
    externalCalls (AddTemplateService.call envSlashURL "user_1" "acme-org" payloadOK).2 ≠
      [(⟨some "acme", none, "acme-user", "my-new-repo", false⟩, ⟨4242⟩)] :=
  ⟨rfl, rfl, rfl, by decide⟩

/-- Claim C10 as amended: for every template whose repositoryUrl is a
well-formed URL whose pathname splits into fewer than two segments after
the leading slash (for example `https://github.com/`), `call` does not
fail at the parsing step: it invokes the external call with
`template_owner` the sole segment (the empty string for an empty path) and
`template_repo` absent. -/
theorem addTemplate_short_path_absent_repo (env : Env) (u s : String) (p : JValue)
    (data : FormData) (auth : AppAuthorization) (tmpl : Template) (acc : Account)
    (url : URLObj)
    (hp : FormSchema.safeParse p = Except.ok data)
    (hauth : env.gitHubAppAuthorizationFindUnique data.appAuthorizationId = some auth)
    (htmpl : env.templateFindUnique data.templateId = some tmpl)
    (hoct : env.octokitConfigured = true)
    (hacc : AccountSchema.safeParse auth.account = some acc)
    (hurl : parseURL tmpl.repositoryUrl = some url)
    (hshort : (pathSegments url).length < 2) :
    externalCalls (AddTemplateService.call env u s p).2 =
      [(⟨(pathSegments url).get? 0, none, acc.login, data.name,
         data.«private» == some "on"⟩,
        ⟨auth.installationId⟩)] := by
  have hrepo : (pathSegments url).get? 1 = none := by
    rw [List.get?_eq_none]
    omega
  have hargs : repoArgs url acc data =
      ⟨(pathSegments url).get? 0, none, acc.login, data.name,
       data.«private» == some "on"⟩ := by
    simp [repoArgs, hrepo]
    omega
  have hext : externalCalls (AddTemplateService.call env u s p).2 =
      [(repoArgs url acc data, ⟨auth.installationId⟩)] := by
    rcases hcr : env.createRepositoryFromTemplate (repoArgs url acc data)
        ⟨auth.installationId⟩ with _ | g <;>
      simp [AddTemplateService.call, hp, hauth, htmpl, hoct, hacc, hurl, hcr, externalCalls]
  rw [hext, hargs]

/-- Witness for the amended claim C10 at the concrete URL
`https://github.com/`: owner is the empty string, repo is absent. -/
theorem addTemplate_short_path_absent_repo_witness :
    externalCalls (AddTemplateService.call envRootURL "user_1" "acme-org" payloadOK).2 =
      [(⟨some "", none, "acme-user", "my-new-repo", false⟩, ⟨4242⟩)] :=
  addTemplate_short_path_absent_repo envRootURL "user_1" "acme-org" payloadOK dataOK authOK
    tmplRootURL ⟨"acme-user"⟩ ⟨"https", "github.com", "/"⟩ rfl rfl rfl rfl rfl rfl
    (by decide)
